import Mathlib

/-!
Shallow embedding of the PPS synchronization engine of the 360cam_gnss
repository: class `SyncManager` in `src/sync.py`.

Conventions used throughout:

* Wall-clock instants (values of `datetime.now()` and `time.time()`) are
  rationals, in seconds.  The code stores instants in event records only
  through `strftime` formatting, which is injective on the instants it
  handles, so a field that Python stores as a formatted string is stored
  here as the instant itself; a Python `None` becomes `Option.none`.
* The Python dicts keyed by file path (`self.recordings`, `self.photos`)
  are association lists in insertion order: assignment to an existing key
  replaces the value in place, assignment to a fresh key appends, exactly
  the Python dict assignment semantics.
* `_save_sync_data` performs file I/O.  Its observable effects are (a) the
  document it serializes, modelled by `saveSyncData : SyncState → JValue`,
  and (b) the fact that a flush happened, modelled by the `save_count`
  field which increments whenever the code calls `_save_sync_data`.
* GPIO, logging and threads are external.  The worker loop body
  (`_pps_process_loop`, sync.py:155-197) is modelled as the per-pulse
  transition `tick`, folded over the drained pulses, with the loop-local
  variable `prev_pps_time` carried alongside the state in `LoopState`.
-/

abbrev Time := ℚ

/-- One entry of `self.recordings`, as written by `register_recording_start`
(sync.py:221-228) and updated by `register_recording_stop` (sync.py:248-252). -/
structure Recording where
  start_time : Time
  start_pps_time : Option Time
  start_pps_count : Nat
  stop_time : Option Time
  stop_pps_time : Option Time
  stop_pps_count : Option Nat
  deriving DecidableEq, Repr

/-- One entry of `self.photos`, as written by `register_photo_capture`
(sync.py:273-277). -/
structure Photo where
  capture_time : Time
  pps_time : Option Time
  pps_count : Nat
  deriving DecidableEq, Repr

/-- One entry of `self.gnss_updates`, as written by `register_gnss_update`
(sync.py:302-312).  The `time` field is the wall clock `time.time()` at
storage, used for rate limiting; `timestamp` is the producer-reported fix
time. -/
structure GnssUpdate where
  time : Time
  timestamp : Time
  latitude : ℚ
  longitude : ℚ
  altitude : ℚ
  pps_time : Option Time
  pps_count : Nat
  deriving DecidableEq, Repr

/-- The mutable fields of `SyncManager` relevant to the synchronization
logic, with their `__init__` defaults (sync.py:34-58).  `save_count` counts
the invocations of `_save_sync_data` (the flush side effect). -/
structure SyncState where
  last_pps_time : Option Time := none
  pps_counter : Nat := 0
  pps_intervals : List ℚ := []
  pps_stability : ℚ := 0
  pps_running : Bool := false
  recordings : List (String × Recording) := []
  photos : List (String × Photo) := []
  gnss_updates : List GnssUpdate := []
  save_count : Nat := 0
  deriving DecidableEq, Repr

/-- The state right after `__init__`. -/
def initState : SyncState := {}

/-- Python dict assignment `m[k] = v`: replace in place if the key is
present, append otherwise. -/
def dictSet {α : Type} : List (String × α) → String → α → List (String × α)
  | [], k, v => [(k, v)]
  | p :: rest, k, v => if p.1 = k then (k, v) :: rest else p :: dictSet rest k v

/-- Number of entries stored under key `k`. -/
def countKey {α : Type} (m : List (String × α)) (k : String) : Nat :=
  m.countP (fun p => p.1 == k)

/-- Python slice `l[-n:]`: the last `n` elements (all of them when the list
is shorter). -/
def lastN {α : Type} (n : Nat) (l : List α) : List α :=
  l.drop (l.length - n)

/-- Result of `queue.Queue.put` as observed by the caller: either the item
went in, or the call is still blocked waiting for space. -/
inductive PutResult where
  | enqueued : List Time → PutResult
  | blocked : PutResult
  deriving DecidableEq, Repr

/-- Semantics of `queue.Queue(maxsize).put(item)` with the default
`block=True` (the call in sync.py:151): when the queue is full the call
blocks until space frees, and it never raises `queue.Full`; consequently
the `except queue.Full` handler in `_pps_callback` (sync.py:152-153) is
unreachable, and no pulse is ever dropped or counted as dropped. -/
def queuePut (maxsize : Nat) (q : List Time) (t : Time) : PutResult :=
  if q.length < maxsize then .enqueued (q ++ [t]) else .blocked

/-- `_pps_callback` (sync.py:145-153): read the wall clock and put it on
`pps_queue`. -/
def pps_callback (maxsize : Nat) (q : List Time) (t : Time) : PutResult :=
  queuePut maxsize q t

/-- Deliver a train of pulses through `_pps_callback` with no interleaved
drain.  GPIO callbacks are delivered sequentially on one thread, so a
blocked `put` stalls the whole train: the result is the queue content and
whether the callback thread ended up blocked. -/
def deliverPulses (maxsize : Nat) : List Time → List Time → List Time × Bool
  | q, [] => (q, false)
  | q, t :: ts =>
    match pps_callback maxsize q t with
    | .enqueued q2 => deliverPulses maxsize q2 ts
    | .blocked => (q, true)

/-- Stability recomputation (sync.py:183-185):
`1 - min(1, max(|interval - avg|))`.  All deviations are nonnegative, so
seeding the fold with `0` agrees with the Python `max` over the nonempty
deviation list. -/
def stabilityOf (ivs : List ℚ) : ℚ :=
  let avg := ivs.sum / (ivs.length : ℚ)
  let max_deviation := (ivs.map (fun i => |i - avg|)).foldr max 0
  1 - min 1 max_deviation

/-- The sync state together with the loop-local `prev_pps_time` of
`_pps_process_loop` (sync.py:157). -/
structure LoopState where
  st : SyncState
  prev_pps_time : Option Time
  deriving DecidableEq, Repr

/-- The loop state at worker start: `prev_pps_time = None`. -/
def initLoop : LoopState := { st := initState, prev_pps_time := none }

/-- One iteration of the worker loop body for one dequeued pulse
(sync.py:167-193): store the pulse time, increment the counter, append the
interval when a previous pulse exists, retain the last 10 intervals
(`pop(0)` after append, modelled as `drop 1`), recompute stability once at
least 3 intervals exist, and save the sync data every 60 pulses. -/
def tick (ls : LoopState) (pps_time : Time) : LoopState :=
  let s0 := ls.st
  let s1 := { s0 with
    last_pps_time := some pps_time
    pps_counter := s0.pps_counter + 1 }
  let s2 :=
    match ls.prev_pps_time with
    | none => s1
    | some prev =>
      let interval : ℚ := pps_time - prev
      let ivs0 := s1.pps_intervals ++ [interval]
      let ivs := if ivs0.length > 10 then ivs0.drop 1 else ivs0
      let stab := if ivs.length ≥ 3 then stabilityOf ivs else s1.pps_stability
      { s1 with pps_intervals := ivs, pps_stability := stab }
  let s3 :=
    if s2.pps_counter % 60 == 0 then { s2 with save_count := s2.save_count + 1 } else s2
  { st := s3, prev_pps_time := some pps_time }

/-- Run the worker over a drained pulse train. -/
def processFrom (ls : LoopState) (ts : List Time) : LoopState :=
  ts.foldl tick ls

/-- `register_recording_start` (sync.py:209-233): unconditionally assign a
fresh record under the path, then save. -/
def register_recording_start (s : SyncState) (video_path : String) (timestamp : Time) :
    SyncState :=
  let rec0 : Recording := {
    start_time := timestamp
    start_pps_time := s.last_pps_time
    start_pps_count := s.pps_counter
    stop_time := none
    stop_pps_time := none
    stop_pps_count := none }
  { s with
    recordings := dictSet s.recordings video_path rec0
    save_count := s.save_count + 1 }

/-- `register_recording_stop` (sync.py:235-259): when the path is known,
update its stop fields and save; otherwise only log a warning. -/
def register_recording_stop (s : SyncState) (video_path : String) (timestamp : Time) :
    SyncState :=
  match s.recordings.lookup video_path with
  | some r =>
    let r2 := { r with
      stop_time := some timestamp
      stop_pps_time := s.last_pps_time
      stop_pps_count := some s.pps_counter }
    { s with
      recordings := dictSet s.recordings video_path r2
      save_count := s.save_count + 1 }
  | none => s

/-- `register_photo_capture` (sync.py:261-282): assign the photo record and
save. -/
def register_photo_capture (s : SyncState) (photo_path : String) (timestamp : Time) :
    SyncState :=
  let ph : Photo := {
    capture_time := timestamp
    pps_time := s.last_pps_time
    pps_count := s.pps_counter }
  { s with
    photos := dictSet s.photos photo_path ph
    save_count := s.save_count + 1 }

/-- The update record built by `register_gnss_update` (sync.py:302-312). -/
def gnssUpdateOf (s : SyncState) (now lat lon alt timestamp : ℚ) : GnssUpdate :=
  { time := now
    timestamp := timestamp
    latitude := lat
    longitude := lon
    altitude := alt
    pps_time := s.last_pps_time
    pps_count := s.pps_counter }

/-- The storing branch of `register_gnss_update` (sync.py:300-318): append
the update, then keep only the newest 1000 when the bound is exceeded. -/
def storeGnss (s : SyncState) (now lat lon alt timestamp : ℚ) : SyncState :=
  let l0 := s.gnss_updates ++ [gnssUpdateOf s now lat lon alt timestamp]
  let l := if l0.length > 1000 then lastN 1000 l0 else l0
  { s with gnss_updates := l }

/-- `register_gnss_update` (sync.py:284-318): drop the update silently when
the list is nonempty and the wall clock `now` is within 5 seconds of the
`time` of the last stored update; otherwise store it.  No save is
triggered in either case. -/
def register_gnss_update (s : SyncState) (now lat lon alt timestamp : ℚ) : SyncState :=
  match s.gnss_updates.getLast? with
  | some lastu =>
    if now - lastu.time < 5 then s else storeGnss s now lat lon alt timestamp
  | none => storeGnss s now lat lon alt timestamp

/-- Rate-limit guard of `register_gnss_update` (sync.py:297): true exactly
when the incoming update will be stored. -/
def gnssStorePasses (s : SyncState) (now : ℚ) : Prop :=
  match s.gnss_updates.getLast? with
  | some lastu => ¬ (now - lastu.time < 5)
  | none => True

instance (s : SyncState) (now : ℚ) : Decidable (gnssStorePasses s now) := by
  unfold gnssStorePasses
  cases s.gnss_updates.getLast? <;> infer_instance

/-- `stop` (sync.py:125-143): a manager that is not running returns at once
with no flush; otherwise the worker is joined, GPIO released, the sync data
saved once, and the running flag cleared.  (Thread join and GPIO cleanup
are external effects.) -/
def stopManager (s : SyncState) : SyncState :=
  if s.pps_running then
    { s with save_count := s.save_count + 1, pps_running := false }
  else s

/-- JSON-like documents, the codomain of `_save_sync_data` serialization. -/
inductive JValue where
  | null : JValue
  | nat : Nat → JValue
  | num : ℚ → JValue
  | str : String → JValue
  | time : Time → JValue
  | arr : List JValue → JValue
  | obj : List (String × JValue) → JValue

/-- Encode an optional formatted timestamp (`x.strftime(...) if x else None`). -/
def optTime : Option Time → JValue
  | none => .null
  | some t => .time t

/-- Encode an optional integer field. -/
def optNat : Option Nat → JValue
  | none => .null
  | some n => .nat n

/-- Serialization of one recording record (sync.py:221-228, 248-252). -/
def recordingJson (r : Recording) : JValue :=
  .obj [("start_time", .time r.start_time),
        ("start_pps_time", optTime r.start_pps_time),
        ("start_pps_count", .nat r.start_pps_count),
        ("stop_time", optTime r.stop_time),
        ("stop_pps_time", optTime r.stop_pps_time),
        ("stop_pps_count", optNat r.stop_pps_count)]

/-- Serialization of one photo record (sync.py:273-277). -/
def photoJson (p : Photo) : JValue :=
  .obj [("capture_time", .time p.capture_time),
        ("pps_time", optTime p.pps_time),
        ("pps_count", .nat p.pps_count)]

/-- Serialization of one GNSS update record (sync.py:302-312). -/
def gnssJson (u : GnssUpdate) : JValue :=
  .obj [("time", .num u.time),
        ("timestamp", .time u.timestamp),
        ("position", .obj [("latitude", .num u.latitude),
                           ("longitude", .num u.longitude),
                           ("altitude", .num u.altitude)]),
        ("pps_time", optTime u.pps_time),
        ("pps_count", .nat u.pps_count)]

/-- The configured PPS GPIO pin (config.py:66). -/
def pps_gpio_pin : Nat := 18

/-- The document serialized by `_save_sync_data` (sync.py:326-337): the
recordings and photos dicts, the last 100 GNSS updates, and a single
`pps_info` summary object. -/
def saveSyncData (s : SyncState) : JValue :=
  .obj [("recordings", .obj (s.recordings.map (fun p => (p.1, recordingJson p.2)))),
        ("photos", .obj (s.photos.map (fun p => (p.1, photoJson p.2)))),
        ("gnss_updates", .arr ((lastN 100 s.gnss_updates).map gnssJson)),
        ("pps_info", .obj [("pin", .nat pps_gpio_pin),
                           ("counter", .nat s.pps_counter),
                           ("stability", .num s.pps_stability),
                           ("last_time", optTime s.last_pps_time)])]

/-- Top-level keys of a serialized document. -/
def topKeys : JValue → List String
  | .obj fields => fields.map Prod.fst
  | _ => []

/-- Top-level field access in a serialized document. -/
def lookupKey (j : JValue) (k : String) : Option JValue :=
  match j with
  | .obj fields => fields.lookup k
  | _ => none

/-- The sequence of consecutive differences of a pulse train, in order: the
interval the worker computes at each pulse after the first
(sync.py:173-174). -/
def consecIntervals : List Time → List ℚ
  | [] => []
  | [_] => []
  | a :: b :: rest => (b - a) :: consecIntervals (b :: rest)

/-- Concrete run: a first registration of path `a.mp4` at time 100 on a
fresh manager. -/
def c2state1 : SyncState := register_recording_start initState "a.mp4" 100

/-- Concrete run: a second registration of the same path at time 200 before
any stop. -/
def c2state2 : SyncState := register_recording_start c2state1 "a.mp4" 200

/-- Concrete run: `a.mp4` opened at time 1 and closed at time 2, so its
span is already closed. -/
def c6closed : SyncState :=
  register_recording_stop (register_recording_start initState "a.mp4" 1) "a.mp4" 2

/-- Concrete run: a manager holding one recording, with PPS monitoring
running. -/
def c9s : SyncState :=
  { register_recording_start initState "a.mp4" 1 with pps_running := true }

/-! ### Association-list lemmas -/

theorem dictSet_lookup_self {α : Type} (m : List (String × α)) (k : String) (v : α) :
    (dictSet m k v).lookup k = some v := by
  induction m with
  | nil => simp [dictSet]
  | cons p rest ih =>
    obtain ⟨a, b⟩ := p
    by_cases h : a = k
    · simp [dictSet, h]
    · simp [dictSet, h, List.lookup_cons, beq_false_of_ne (Ne.symm h), ih]

theorem dictSet_lookup_ne {α : Type} (m : List (String × α)) (k k' : String) (v : α)
    (h : k' ≠ k) : (dictSet m k v).lookup k' = m.lookup k' := by
  induction m with
  | nil => simp [dictSet, beq_false_of_ne h, h]
  | cons p rest ih =>
    obtain ⟨a, b⟩ := p
    by_cases hak : a = k
    · simp [dictSet, hak, List.lookup_cons, beq_false_of_ne h]
    · by_cases hka : k' = a
      · simp [dictSet, hak, List.lookup_cons, hka]
      · simp [dictSet, hak, List.lookup_cons, beq_false_of_ne hka, ih]

theorem countKey_dictSet {α : Type} (m : List (String × α)) (k : String) (v : α) :
    countKey (dictSet m k v) k = max (countKey m k) 1 := by
  induction m with
  | nil => simp [dictSet, countKey]
  | cons p rest ih =>
    obtain ⟨a, b⟩ := p
    by_cases h : a = k
    · simp [dictSet, h, countKey, List.countP_cons]
      try omega
    · simp only [countKey] at ih
      simp [dictSet, h, countKey, List.countP_cons, beq_false_of_ne h, ih]
      try omega

/-! ### Worker-loop lemmas -/

theorem tick_recordings (ls : LoopState) (t : Time) :
    (tick ls t).st.recordings = ls.st.recordings := by
  unfold tick
  cases ls.prev_pps_time <;> dsimp only <;> split <;> rfl

theorem tick_counter (ls : LoopState) (t : Time) :
    (tick ls t).st.pps_counter = ls.st.pps_counter + 1 := by
  unfold tick
  cases ls.prev_pps_time <;> dsimp only <;> split <;> rfl

theorem processFrom_recordings (ts : List Time) (ls : LoopState) :
    (processFrom ls ts).st.recordings = ls.st.recordings := by
  induction ts generalizing ls with
  | nil => rfl
  | cons t ts ih => rw [processFrom, List.foldl_cons, ← processFrom, ih, tick_recordings]

theorem processFrom_counter (ts : List Time) (ls : LoopState) :
    (processFrom ls ts).st.pps_counter = ls.st.pps_counter + ts.length := by
  induction ts generalizing ls with
  | nil => rfl
  | cons t ts ih =>
    rw [processFrom, List.foldl_cons, ← processFrom, ih, tick_counter, List.length_cons]
    omega

/-! ### Claim C2 -/

/-- C2 counterexample: `register_recording_start` on an already-open path is
not rejected and does not leave the existing span untouched: the second
registration at time 200 replaces the start time 100 of the open span. -/
theorem c2_duplicate_start_counterexample :
    c2state1.recordings.lookup "a.mp4" = some
      { start_time := 100, start_pps_time := none, start_pps_count := 0,
        stop_time := none, stop_pps_time := none, stop_pps_count := none } ∧
    c2state2.recordings.lookup "a.mp4" = some
      { start_time := 200, start_pps_time := none, start_pps_count := 0,
        stop_time := none, stop_pps_time := none, stop_pps_count := none } ∧
    (100 : ℚ) ≠ 200 := by
  refine ⟨rfl, rfl, by norm_num⟩

/-- C2 amended: a second `register_recording_start` on a path whose span is
still open is not rejected: it overwrites the span in place, so exactly one
span for the path remains, holding the start data of the second call and
cleared stop fields. -/
theorem c2_duplicate_start_overwrites (s : SyncState) (p : String) (r : Recording)
    (hopen : s.recordings.lookup p = some r) (hnostop : r.stop_time = none)
    (hone : countKey s.recordings p = 1) (t1 : Time) :
    countKey (register_recording_start s p t1).recordings p = 1 ∧
    (register_recording_start s p t1).recordings.lookup p = some
      { start_time := t1, start_pps_time := s.last_pps_time,
        start_pps_count := s.pps_counter,
        stop_time := none, stop_pps_time := none, stop_pps_count := none } := by
  constructor
  · show countKey (dictSet s.recordings p _) p = 1
    rw [countKey_dictSet, hone]
    omega
  · exact dictSet_lookup_self s.recordings p _

/-- C2 witness: the amended statement at the concrete duplicate-start run. -/
theorem c2_duplicate_start_overwrites_witness :
    countKey c2state2.recordings "a.mp4" = 1 ∧
    c2state2.recordings.lookup "a.mp4" = some
      { start_time := 200, start_pps_time := none, start_pps_count := 0,
        stop_time := none, stop_pps_time := none, stop_pps_count := none } :=
  c2_duplicate_start_overwrites c2state1 "a.mp4"
    { start_time := 100, start_pps_time := none, start_pps_count := 0,
      stop_time := none, stop_pps_time := none, stop_pps_count := none }
    rfl rfl rfl 200

/-! ### Claim C6 -/

/-- C6 counterexample: the claim also covers paths that are already closed,
but `register_recording_stop` on a closed path is not a no-op: the code
keeps closed spans in `self.recordings`, so a second stop overwrites the
stop fields (time 2 becomes time 3) and triggers another save. -/
theorem c6_reclose_counterexample :
    ((register_recording_stop c6closed "a.mp4" 3).recordings.lookup "a.mp4").map
        Recording.stop_time = some (some 3) ∧
    (c6closed.recordings.lookup "a.mp4").map Recording.stop_time = some (some 2) ∧
    (register_recording_stop c6closed "a.mp4" 3).save_count = c6closed.save_count + 1 := by
  refine ⟨rfl, rfl, rfl⟩

/-- C6 amended: for a path that was never opened (it is absent from
`self.recordings`), `register_recording_stop` leaves the whole state
unchanged — no span changes, no save, and being a total function it raises
nothing; the failure is only logged. -/
theorem c6_unknown_stop_noop (s : SyncState) (p : String) (t : Time)
    (h : s.recordings.lookup p = none) :
    register_recording_stop s p t = s := by
  unfold register_recording_stop
  rw [h]

/-- C6 witness: stopping a never-opened path on a fresh manager. -/
theorem c6_unknown_stop_noop_witness :
    register_recording_stop initState "a.mp4" 5 = initState :=
  c6_unknown_stop_noop initState "a.mp4" 5 rfl

/-! ### Claim C7 -/

/-- C7: starting a recording, letting the worker process any pulse train,
then stopping it with `t0 < t1` yields a span that is retained, keeps the
start fields captured at the start call, has its stop fields filled in by
the one closing mutation (`stop_time` and the stop pulse count are
non-null), and whose stop pulse count is at least its start pulse count. -/
theorem c7_span_closed (ls : LoopState) (p : String) (t0 t1 : Time) (pulses : List Time)
    (ht : t0 < t1) :
    (register_recording_stop
        (processFrom ⟨register_recording_start ls.st p t0, ls.prev_pps_time⟩ pulses).st
        p t1).recordings.lookup p = some
      { start_time := t0
        start_pps_time := ls.st.last_pps_time
        start_pps_count := ls.st.pps_counter
        stop_time := some t1
        stop_pps_time :=
          (processFrom ⟨register_recording_start ls.st p t0, ls.prev_pps_time⟩ pulses).st.last_pps_time
        stop_pps_count :=
          some (processFrom ⟨register_recording_start ls.st p t0, ls.prev_pps_time⟩ pulses).st.pps_counter } ∧
    ls.st.pps_counter ≤
      (processFrom ⟨register_recording_start ls.st p t0, ls.prev_pps_time⟩ pulses).st.pps_counter := by
  have hrec : (processFrom ⟨register_recording_start ls.st p t0, ls.prev_pps_time⟩ pulses).st.recordings
      = dictSet ls.st.recordings p
        { start_time := t0, start_pps_time := ls.st.last_pps_time,
          start_pps_count := ls.st.pps_counter,
          stop_time := none, stop_pps_time := none, stop_pps_count := none } := by
    rw [processFrom_recordings]
    rfl
  have hlook : (processFrom ⟨register_recording_start ls.st p t0, ls.prev_pps_time⟩ pulses).st.recordings.lookup p
      = some { start_time := t0, start_pps_time := ls.st.last_pps_time,
               start_pps_count := ls.st.pps_counter,
               stop_time := none, stop_pps_time := none, stop_pps_count := none } := by
    rw [hrec]
    exact dictSet_lookup_self _ _ _
  constructor
  · unfold register_recording_stop
    rw [hlook]
    dsimp only
    rw [hrec]
    exact dictSet_lookup_self _ _ _
  · rw [processFrom_counter]
    exact Nat.le_add_right _ _

/-- C7 witness: a fresh manager, start at time 1, pulses at times 2 and 3,
stop at time 10. -/
theorem c7_span_closed_witness :
    (register_recording_stop
        (processFrom ⟨register_recording_start initLoop.st "a.mp4" 1, initLoop.prev_pps_time⟩ [2, 3]).st
        "a.mp4" 10).recordings.lookup "a.mp4" = some
      { start_time := 1, start_pps_time := none, start_pps_count := 0,
        stop_time := some 10, stop_pps_time := some 3, stop_pps_count := some 2 } ∧
    (0 : Nat) ≤ 2 := by
  have h := c7_span_closed initLoop "a.mp4" 1 10 [2, 3] (by norm_num)
  exact h

/-! ### Claim C9 -/

/-- C9 counterexample: the flush on `stop` is not unconditional: a manager
whose PPS monitoring is not running (here, a fresh one) returns from `stop`
without flushing — the whole state, `save_count` included, is unchanged. -/
theorem c9_stop_without_running_counterexample :
    stopManager initState = initState ∧ initState.pps_running = false ∧
    initState.save_count = 0 := by
  refine ⟨rfl, rfl, rfl⟩

/-- C9 amended: a flush happens immediately after every
`register_recording_start`, after `register_recording_stop` on an open
path (none on an unknown path), and after every `register_photo_capture`;
`register_gnss_update` never flushes; `stop` flushes exactly once when PPS
monitoring is running and not at all otherwise. -/
theorem c9_flush_triggers (s : SyncState) (p : String) (t : Time)
    (now lat lon alt ts : ℚ) :
    (register_recording_start s p t).save_count = s.save_count + 1 ∧
    ((s.recordings.lookup p).isSome →
      (register_recording_stop s p t).save_count = s.save_count + 1) ∧
    (s.recordings.lookup p = none →
      (register_recording_stop s p t).save_count = s.save_count) ∧
    (register_photo_capture s p t).save_count = s.save_count + 1 ∧
    (register_gnss_update s now lat lon alt ts).save_count = s.save_count ∧
    (s.pps_running = true → (stopManager s).save_count = s.save_count + 1) ∧
    (s.pps_running = false → (stopManager s).save_count = s.save_count) := by
  refine ⟨rfl, ?_, ?_, rfl, ?_, ?_, ?_⟩
  · intro h
    obtain ⟨r, hr⟩ := Option.isSome_iff_exists.mp h
    unfold register_recording_stop
    rw [hr]
  · intro h
    unfold register_recording_stop
    rw [h]
  · unfold register_gnss_update storeGnss
    cases s.gnss_updates.getLast? with
    | none => rfl
    | some lastu =>
      dsimp only
      split <;> rfl
  · intro h
    simp [stopManager, h]
  · intro h
    simp [stopManager, h]

/-- C9 witness: the amended statement at a concrete manager that is running
and holds an open recording. -/
theorem c9_flush_triggers_witness :
    (register_recording_stop c9s "a.mp4" 2).save_count = c9s.save_count + 1 ∧
    (stopManager c9s).save_count = c9s.save_count + 1 ∧
    (register_gnss_update c9s 0 1 2 3 4).save_count = c9s.save_count ∧
    (register_recording_stop c9s "other.mp4" 2).save_count = c9s.save_count := by
  have h := c9_flush_triggers c9s "a.mp4" 2 0 1 2 3 4
  have h2 := c9_flush_triggers c9s "other.mp4" 2 0 1 2 3 4
  exact ⟨h.2.1 (by decide), h.2.2.2.2.2.1 rfl, h.2.2.2.2.1, h2.2.2.1 (by decide)⟩

/-! ### lastN and GNSS helper lemmas -/

theorem lastN_length {α : Type} (n : Nat) (l : List α) :
    (lastN n l).length = min n l.length := by
  simp only [lastN, List.length_drop]
  omega

theorem lastN_of_le {α : Type} (n : Nat) (l : List α) (h : l.length ≤ n) :
    lastN n l = l := by
  simp only [lastN, Nat.sub_eq_zero_of_le h, List.drop_zero]

theorem register_gnss_update_stores (s : SyncState) (now lat lon alt ts : ℚ)
    (hpass : gnssStorePasses s now) :
    register_gnss_update s now lat lon alt ts = storeGnss s now lat lon alt ts := by
  unfold gnssStorePasses at hpass
  unfold register_gnss_update
  cases h : s.gnss_updates.getLast? with
  | none => rfl
  | some lastu =>
    rw [h] at hpass
    dsimp only
    rw [if_neg hpass]

theorem register_gnss_update_drops (s : SyncState) (now lat lon alt ts : ℚ)
    (u : GnssUpdate) (hu : s.gnss_updates.getLast? = some u) (hc : now - u.time < 5) :
    register_gnss_update s now lat lon alt ts = s := by
  unfold register_gnss_update
  rw [hu]
  dsimp only
  rw [if_pos hc]

theorem storeGnss_gnss_updates_of_lt (s : SyncState) (now lat lon alt ts : ℚ)
    (hlen : s.gnss_updates.length < 1000) :
    (storeGnss s now lat lon alt ts).gnss_updates
      = s.gnss_updates ++ [gnssUpdateOf s now lat lon alt ts] := by
  unfold storeGnss
  dsimp only
  rw [if_neg]
  simp only [List.length_append, List.length_singleton]
  omega

/-! ### Claim C1 -/

/-- C1: the claim says the PPS callback never blocks and a full queue drops
the pulse, leaving the queue unchanged and counting the drop; the code
instead calls the blocking `put` (sync.py:151), so at a full queue the
callback blocks and `queue.Full` is never raised — with a queue of depth 2
receiving 5 pulses and no drain, pulses 1 and 2 are enqueued and the
callback blocks at pulse 3, dropping and counting nothing. -/
theorem c1_callback_blocks_when_full :
    pps_callback 2 [10, 11] 12 = PutResult.blocked ∧
    deliverPulses 2 [] [10, 11, 12, 13, 14] = ([10, 11], true) := by
  refine ⟨rfl, rfl⟩

/-! ### Claim C5 -/

/-- C5: when a stored position fix at wall time `now1` is followed by a
registration at wall time `now2` with `now2 - now1 < 5`, the second
registration is silently dropped: the state is exactly the one after the
first registration, which stored exactly one new fix. -/
theorem c5_rate_limit (s : SyncState) (now1 now2 lat1 lon1 alt1 ts1 lat2 lon2 alt2 ts2 : ℚ)
    (hpass : gnssStorePasses s now1)
    (hlen : s.gnss_updates.length < 1000)
    (hclose : now2 - now1 < 5) :
    register_gnss_update (register_gnss_update s now1 lat1 lon1 alt1 ts1)
        now2 lat2 lon2 alt2 ts2
      = register_gnss_update s now1 lat1 lon1 alt1 ts1 ∧
    (register_gnss_update s now1 lat1 lon1 alt1 ts1).gnss_updates.length
      = s.gnss_updates.length + 1 := by
  have h1 : register_gnss_update s now1 lat1 lon1 alt1 ts1
      = storeGnss s now1 lat1 lon1 alt1 ts1 := register_gnss_update_stores s _ _ _ _ _ hpass
  have h2 : (register_gnss_update s now1 lat1 lon1 alt1 ts1).gnss_updates
      = s.gnss_updates ++ [gnssUpdateOf s now1 lat1 lon1 alt1 ts1] := by
    rw [h1]
    exact storeGnss_gnss_updates_of_lt s _ _ _ _ _ hlen
  have hlast : (register_gnss_update s now1 lat1 lon1 alt1 ts1).gnss_updates.getLast?
      = some (gnssUpdateOf s now1 lat1 lon1 alt1 ts1) := by
    rw [h2, List.getLast?_append_cons]
    rfl
  constructor
  · exact register_gnss_update_drops _ now2 lat2 lon2 alt2 ts2 _ hlast hclose
  · rw [h2]
    simp

/-- C5 witness: a fresh manager, fixes at wall times 0 and 4. -/
theorem c5_rate_limit_witness :
    register_gnss_update (register_gnss_update initState 0 1 2 3 4) 4 5 6 7 8
      = register_gnss_update initState 0 1 2 3 4 ∧
    (register_gnss_update initState 0 1 2 3 4).gnss_updates.length = 1 := by
  have h := c5_rate_limit initState 0 4 1 2 3 4 5 6 7 8 trivial (by decide) (by norm_num)
  exact ⟨h.1, h.2⟩

/-! ### Claim C10 -/

/-- C10: a `register_gnss_update` call on a state holding at most 1000
stored fixes leaves at most 1000 stored fixes, and either leaves the list
unchanged (rate-limited drop) or replaces it by the newest-1000 suffix of
the list with the new fix appended (so when the bound would be exceeded,
the oldest entries are discarded). -/
theorem c10_gnss_bound (s : SyncState) (now lat lon alt ts : ℚ)
    (hlen : s.gnss_updates.length ≤ 1000) :
    (register_gnss_update s now lat lon alt ts).gnss_updates.length ≤ 1000 ∧
    ((register_gnss_update s now lat lon alt ts).gnss_updates = s.gnss_updates ∨
      (register_gnss_update s now lat lon alt ts).gnss_updates
        = lastN 1000 (s.gnss_updates ++ [gnssUpdateOf s now lat lon alt ts])) := by
  have hstore : (storeGnss s now lat lon alt ts).gnss_updates
      = lastN 1000 (s.gnss_updates ++ [gnssUpdateOf s now lat lon alt ts]) := by
    unfold storeGnss
    dsimp only
    split
    · rfl
    · next h =>
      rw [lastN_of_le]
      simp only [List.length_append, List.length_singleton] at h ⊢
      omega
  have hstorelen : (storeGnss s now lat lon alt ts).gnss_updates.length ≤ 1000 := by
    rw [hstore, lastN_length]
    omega
  unfold register_gnss_update
  cases s.gnss_updates.getLast? with
  | none => exact ⟨hstorelen, Or.inr hstore⟩
  | some lastu =>
    dsimp only
    split
    · exact ⟨hlen, Or.inl rfl⟩
    · exact ⟨hstorelen, Or.inr hstore⟩

/-- C10 witness: one registration on a fresh manager. -/
theorem c10_gnss_bound_witness :
    (register_gnss_update initState 0 1 2 3 4).gnss_updates.length ≤ 1000 ∧
    ((register_gnss_update initState 0 1 2 3 4).gnss_updates = initState.gnss_updates ∨
      (register_gnss_update initState 0 1 2 3 4).gnss_updates
        = lastN 1000 (initState.gnss_updates ++ [gnssUpdateOf initState 0 1 2 3 4])) :=
  c10_gnss_bound initState 0 1 2 3 4 (by decide)

/-! ### Claim C8 -/

/-- C8 counterexample: after three pulses, the flushed document does not
contain a `pulseEvents` collection at all: its top-level keys are exactly
`recordings`, `photos`, `gnss_updates` and `pps_info`, and no ring of raw
pulse events (one entry per pulse with its count and time) is persisted —
only the single `pps_info` summary carrying the total counter and the last
pulse time. -/
theorem c8_no_pulse_events_counterexample :
    topKeys (saveSyncData (processFrom initLoop [1, 2, 3]).st)
      = ["recordings", "photos", "gnss_updates", "pps_info"] ∧
    lookupKey (saveSyncData (processFrom initLoop [1, 2, 3]).st) "pulseEvents" = none ∧
    lookupKey (saveSyncData (processFrom initLoop [1, 2, 3]).st) "pps_info"
      = some (.obj [("pin", .nat 18), ("counter", .nat 3), ("stability", .num 0),
                    ("last_time", .time 3)]) := by
  refine ⟨rfl, rfl, rfl⟩

/-- C8 amended: every flush serializes a document whose collections are
exactly `recordings`, `photos`, `gnss_updates` — the most recent 100 stored
position fixes only — and a single `pps_info` summary object holding the
pin, the pulse counter, the stability and the last pulse time; no
per-pulse event ring is persisted. -/
theorem c8_flush_document (s : SyncState) :
    topKeys (saveSyncData s) = ["recordings", "photos", "gnss_updates", "pps_info"] ∧
    lookupKey (saveSyncData s) "pulseEvents" = none ∧
    lookupKey (saveSyncData s) "gnss_updates"
      = some (.arr ((lastN 100 s.gnss_updates).map gnssJson)) ∧
    (lastN 100 s.gnss_updates).length ≤ 100 ∧
    lookupKey (saveSyncData s) "pps_info"
      = some (.obj [("pin", .nat pps_gpio_pin), ("counter", .nat s.pps_counter),
                    ("stability", .num s.pps_stability),
                    ("last_time", optTime s.last_pps_time)]) := by
  refine ⟨rfl, rfl, rfl, ?_, rfl⟩
  rw [lastN_length]
  omega

/-! ### Claim C3 -/

/-- C3: processing any train of N accepted pulses with zero drops from a
fresh worker leaves the pulse counter at N; the counter grows by exactly 1
per processed pulse, hence is strictly increasing across intermediate
observation points. -/
theorem c3_pulse_counter (ts : List Time) :
    (processFrom initLoop ts).st.pps_counter = ts.length ∧
    (∀ k, k < ts.length →
      (processFrom initLoop (ts.take (k + 1))).st.pps_counter
        = (processFrom initLoop (ts.take k)).st.pps_counter + 1) ∧
    (∀ i j, i < j → j ≤ ts.length →
      (processFrom initLoop (ts.take i)).st.pps_counter
        < (processFrom initLoop (ts.take j)).st.pps_counter) := by
  have hc : ∀ us : List Time, (processFrom initLoop us).st.pps_counter = us.length := by
    intro us
    rw [processFrom_counter]
    show 0 + us.length = us.length
    omega
  refine ⟨hc ts, ?_, ?_⟩
  · intro k hk
    rw [hc, hc, List.length_take, List.length_take]
    omega
  · intro i j hij hj
    rw [hc, hc, List.length_take, List.length_take]
    omega

/-- C3 witness: three pulses on a fresh worker. -/
theorem c3_pulse_counter_witness :
    (processFrom initLoop [5, 6, 7]).st.pps_counter = 3 ∧
    (processFrom initLoop (List.take 2 [5, 6, 7])).st.pps_counter
      = (processFrom initLoop (List.take 1 [5, 6, 7])).st.pps_counter + 1 ∧
    (processFrom initLoop (List.take 1 [5, 6, 7])).st.pps_counter
      < (processFrom initLoop (List.take 3 [5, 6, 7])).st.pps_counter := by
  have h := c3_pulse_counter [5, 6, 7]
  exact ⟨h.1, h.2.1 1 (by norm_num), h.2.2 1 3 (by norm_num) (by norm_num)⟩

/-! ### Interval-window lemmas for the stability claim -/

theorem processFrom_snoc (ls : LoopState) (ts : List Time) (t : Time) :
    processFrom ls (ts ++ [t]) = tick (processFrom ls ts) t := by
  simp [processFrom, List.foldl_append]

theorem consecIntervals_snoc (ts : List Time) (t : Time) :
    consecIntervals (ts ++ [t])
      = consecIntervals ts ++ (match ts.getLast? with
        | none => []
        | some a => [t - a]) := by
  induction ts with
  | nil => rfl
  | cons a ts ih =>
    cases ts with
    | nil => rfl
    | cons b rest =>
      show consecIntervals (a :: b :: (rest ++ [t])) = _
      rw [consecIntervals]
      have hbt : b :: (rest ++ [t]) = (b :: rest) ++ [t] := rfl
      rw [hbt, ih]
      rfl

theorem lastN_snoc_step {α : Type} (n : Nat) (hn : 1 ≤ n) (xs : List α) (x : α) :
    (if (lastN n xs ++ [x]).length > n then (lastN n xs ++ [x]).drop 1
      else lastN n xs ++ [x]) = lastN n (xs ++ [x]) := by
  have hlast : (lastN n xs).length = min n xs.length := lastN_length n xs
  by_cases h : xs.length < n
  · have hxs : lastN n xs = xs := lastN_of_le n xs (le_of_lt h)
    have hxx : lastN n (xs ++ [x]) = xs ++ [x] := by
      apply lastN_of_le
      simp only [List.length_append, List.length_singleton]
      omega
    rw [hxs, hxx, if_neg]
    simp only [List.length_append, List.length_singleton]
    omega
  · push_neg at h
    rw [if_pos]
    · unfold lastN
      rw [List.drop_append_of_le_length, List.drop_append_of_le_length, List.drop_drop]
      · congr 2
        simp only [List.length_append, List.length_singleton]
        omega
      all_goals
        simp only [List.length_drop, List.length_append, List.length_singleton]
        omega
    · simp only [List.length_append, List.length_singleton]
      omega

/-- The worker step when no previous pulse time exists: only the clock
fields and possibly the save counter change. -/
theorem tick_none (ls : LoopState) (t : Time) (h : ls.prev_pps_time = none) :
    (tick ls t).st.pps_intervals = ls.st.pps_intervals ∧
    (tick ls t).st.pps_stability = ls.st.pps_stability ∧
    (tick ls t).prev_pps_time = some t := by
  unfold tick
  rw [h]
  dsimp only
  split <;> exact ⟨rfl, rfl, rfl⟩

/-- The worker step when a previous pulse time exists: the interval window
is extended (and trimmed to 10) and stability is recomputed once the window
holds at least 3 intervals. -/
theorem tick_some (ls : LoopState) (t prev : Time) (h : ls.prev_pps_time = some prev)
    (ivs : List ℚ)
    (hivs : ivs = if (ls.st.pps_intervals ++ [t - prev]).length > 10
        then (ls.st.pps_intervals ++ [t - prev]).drop 1
        else ls.st.pps_intervals ++ [t - prev]) :
    (tick ls t).st.pps_intervals = ivs ∧
    (tick ls t).st.pps_stability
      = (if ivs.length ≥ 3 then stabilityOf ivs else ls.st.pps_stability) ∧
    (tick ls t).prev_pps_time = some t := by
  subst hivs
  unfold tick
  rw [h]
  dsimp only
  split <;> exact ⟨rfl, rfl, rfl⟩

theorem foldr_max_nonneg (l : List ℚ) : 0 ≤ l.foldr max 0 := by
  induction l with
  | nil => exact le_refl 0
  | cons x l ih => exact le_trans ih (le_max_right x _)

theorem stabilityOf_nonneg (ivs : List ℚ) : 0 ≤ stabilityOf ivs := by
  unfold stabilityOf
  dsimp only
  have h := min_le_left (1 : ℚ)
    ((ivs.map (fun i => |i - ivs.sum / (ivs.length : ℚ)|)).foldr max 0)
  linarith

theorem stabilityOf_le_one (ivs : List ℚ) : stabilityOf ivs ≤ 1 := by
  unfold stabilityOf
  dsimp only
  have hd := foldr_max_nonneg (ivs.map (fun i => |i - ivs.sum / (ivs.length : ℚ)|))
  have h : (0 : ℚ) ≤ min 1
      ((ivs.map (fun i => |i - ivs.sum / (ivs.length : ℚ)|)).foldr max 0) :=
    le_min (by norm_num) hd
  linarith

/-- Invariant of the worker run from a fresh manager: `prev_pps_time`
tracks the last pulse, the interval window is the newest-10 slice of the
consecutive pulse intervals, the stability is still the initial 0 while
fewer than 3 intervals are recorded, and otherwise it is exactly the
recomputed jitter formula over the window. -/
theorem processFrom_invariant (ts : List Time) :
    (processFrom initLoop ts).prev_pps_time = ts.getLast? ∧
    (processFrom initLoop ts).st.pps_intervals = lastN 10 (consecIntervals ts) ∧
    ((processFrom initLoop ts).st.pps_intervals.length < 3 →
      (processFrom initLoop ts).st.pps_stability = 0) ∧
    (3 ≤ (processFrom initLoop ts).st.pps_intervals.length →
      (processFrom initLoop ts).st.pps_stability
        = stabilityOf (processFrom initLoop ts).st.pps_intervals) := by
  induction ts using List.reverseRecOn with
  | nil => exact ⟨rfl, rfl, fun _ => rfl, fun h => absurd h (by decide)⟩
  | append_singleton us t ih =>
    obtain ⟨hprev, hivs, hlt, hge⟩ := ih
    rw [processFrom_snoc]
    cases hp : (processFrom initLoop us).prev_pps_time with
    | none =>
      rw [hp] at hprev
      obtain ⟨hi, hs, hq⟩ := tick_none _ t hp
      refine ⟨?_, ?_, ?_, ?_⟩
      · rw [hq, List.getLast?_append_cons]
        rfl
      · rw [hi, hivs, consecIntervals_snoc, ← hprev]
        simp
      · intro hlen
        rw [hi] at hlen
        rw [hs]
        exact hlt hlen
      · intro hlen
        rw [hi] at hlen
        rw [hs, hi]
        exact hge hlen
    | some prev =>
      have hp2 : us.getLast? = some prev := by rw [← hprev, hp]
      obtain ⟨hi, hs, hq⟩ := tick_some _ t prev hp _ rfl
      have hnewlen : (processFrom initLoop us).st.pps_intervals.length
          ≤ (tick (processFrom initLoop us) t).st.pps_intervals.length := by
        rw [hi]
        split <;> simp
      refine ⟨?_, ?_, ?_, ?_⟩
      · rw [hq, List.getLast?_append_cons]
        rfl
      · rw [hi, hivs, consecIntervals_snoc, hp2]
        dsimp only
        rw [← hivs]
        calc (if ((processFrom initLoop us).st.pps_intervals ++ [t - prev]).length > 10
              then ((processFrom initLoop us).st.pps_intervals ++ [t - prev]).drop 1
              else (processFrom initLoop us).st.pps_intervals ++ [t - prev])
            = (if (lastN 10 (consecIntervals us) ++ [t - prev]).length > 10
              then (lastN 10 (consecIntervals us) ++ [t - prev]).drop 1
              else lastN 10 (consecIntervals us) ++ [t - prev]) := by rw [hivs]
          _ = lastN 10 (consecIntervals us ++ [t - prev]) :=
              lastN_snoc_step 10 (by norm_num) _ _
      · intro hlen
        have hlen2 := hlen
        rw [hi] at hlen2
        rw [hs, if_neg (by omega)]
        exact hlt (lt_of_le_of_lt hnewlen hlen)
      · intro hlen
        rw [hi] at hlen
        rw [hs, hi, if_pos hlen]

/-! ### Claim C4 -/

/-- C4: from a fresh manager, for any processed pulse train the reported
stability is the initial sentinel 0 while fewer than 3 intervals have been
recorded; once at least 3 intervals exist, the interval window is the
newest-10 slice of the consecutive pulse intervals and the stability equals
`1 - min(1, max |interval - mean|)` over that window, a value inside
[0, 1]. -/
theorem c4_stability (ts : List Time) :
    ((processFrom initLoop ts).st.pps_intervals.length < 3 →
      (processFrom initLoop ts).st.pps_stability = 0) ∧
    (3 ≤ (processFrom initLoop ts).st.pps_intervals.length →
      (processFrom initLoop ts).st.pps_intervals = lastN 10 (consecIntervals ts) ∧
      (processFrom initLoop ts).st.pps_stability
        = stabilityOf (processFrom initLoop ts).st.pps_intervals ∧
      0 ≤ (processFrom initLoop ts).st.pps_stability ∧
      (processFrom initLoop ts).st.pps_stability ≤ 1) := by
  obtain ⟨hprev, hivs, hlt, hge⟩ := processFrom_invariant ts
  refine ⟨hlt, fun hlen => ⟨hivs, hge hlen, ?_, ?_⟩⟩
  · rw [hge hlen]
    exact stabilityOf_nonneg _
  · rw [hge hlen]
    exact stabilityOf_le_one _

/-- C4 witness: two pulses leave the sentinel 0; four pulses at times
0, 1, 2, 3 record three unit intervals, the window matches the consecutive
intervals, and the recomputed stability lies inside [0, 1]. -/
theorem c4_stability_witness :
    (processFrom initLoop [0, 1]).st.pps_stability = 0 ∧
    (processFrom initLoop [0, 1, 2, 3]).st.pps_intervals
      = lastN 10 (consecIntervals [0, 1, 2, 3]) ∧
    0 ≤ (processFrom initLoop [0, 1, 2, 3]).st.pps_stability ∧
    (processFrom initLoop [0, 1, 2, 3]).st.pps_stability ≤ 1 := by
  have h1 := (c4_stability [0, 1]).1 (by decide)
  have h := (c4_stability [0, 1, 2, 3]).2 (by decide)
  exact ⟨h1, h.1, h.2.2.1, h.2.2.2⟩
